import Mathlib

/- Verification of the bucket/object naming and validation layer of the
   fast-api-starter repository.

   The embedded functions come from:
   - src/api/s3_api.py: validate_bucket_name, create_bucket,
     create_bucket_with_folder, get_folder_contents,
     get_public_image_urls_in_folder;
   - src/streamlit/product_mgmt_v1.py and src/streamlit/add_new_productv2.py:
     generate_sku, sanitize_folder_name, process_and_upload_image,
     delete_product.

   Strings are modelled as `List Char` over the ASCII fragment.  Python
   string methods are modelled character-wise: `str.islower` requires every
   cased character to be lowercase and at least one cased character to be
   present; `str.isalnum` requires a nonempty all-alphanumeric string;
   `str.lower` / `str.upper` map `Char.toLower` / `Char.toUpper` (exact for
   ASCII); `str.split()` splits on whitespace runs dropping empty pieces;
   `str.split("-")` keeps empty pieces; `s.endswith("/")` tests the last
   character; `s.replace("-", "")` removes every hyphen. -/

/-- Helper: UInt32 order reflects the order of the underlying naturals. -/
theorem uint32_le_iff (a b : UInt32) : a ≤ b ↔ a.toNat ≤ b.toNat := by
  rw [UInt32.le_def, BitVec.le_def]
  rfl

/-- A character is lowercase only if it is not uppercase. -/
theorem isUpper_eq_false_of_isLower {c : Char} (h : c.isLower = true) :
    c.isUpper = false := by
  simp only [Char.isLower, Bool.and_eq_true, decide_eq_true_eq] at h
  simp only [Char.isUpper, Bool.and_eq_false_iff, decide_eq_false_iff_not]
  right
  intro hle
  have h97 : (97 : UInt32) ≤ c.val := h.1
  exact absurd (UInt32.le_trans h97 hle) (by decide)

/-- Lowering a character never yields an uppercase character (model of the
fact that `str.lower()` output contains no uppercase ASCII letters). -/
theorem isUpper_toLower (c : Char) : (Char.toLower c).isUpper = false := by
  show (if c.toNat ≥ 65 ∧ c.toNat ≤ 90 then Char.ofNat (c.toNat + 32) else c).isUpper = false
  split
  · next h =>
    have hv : (Char.ofNat (c.toNat + 32)).toNat = c.toNat + 32 := by
      rw [Char.ofNat, dif_pos (Or.inl (by omega))]
      rfl
    simp only [Char.isUpper, Bool.and_eq_false_iff]
    right
    simp only [decide_eq_false_iff_not, Char.toNat] at *
    intro hle
    rw [uint32_le_iff] at hle
    simp only [UInt32.toNat_ofNat, UInt32.size] at hle
    rw [hv] at hle
    omega
  · next h =>
    simp only [Char.isUpper, Bool.and_eq_false_iff]
    by_cases h65 : (65 : UInt32) ≤ c.val
    · right
      simp only [decide_eq_false_iff_not]
      intro hle
      rw [uint32_le_iff] at hle h65
      simp only [UInt32.toNat_ofNat, UInt32.size] at hle h65
      simp only [Char.toNat] at h
      omega
    · left
      simp [h65]

/-- An alphanumeric character is not whitespace. -/
theorem isWhitespace_eq_false_of_isAlphanum {c : Char} (h : c.isAlphanum = true) :
    c.isWhitespace = false := by
  by_contra hw
  simp only [Bool.not_eq_false] at hw
  simp only [Char.isWhitespace, Bool.or_eq_true, decide_eq_true_eq] at hw
  rcases hw with ((rfl | rfl) | rfl) | rfl <;> simp_all

/-- ASCII model of a cased character (Python `islower` quantifies over
cased characters only). -/
def isCasedChar (c : Char) : Bool :=
  c.isUpper || c.isLower

/-- Model of Python `str.islower`: all cased characters are lowercase and at
least one cased character is present. -/
def pyIslower (s : List Char) : Bool :=
  s.all (fun c => !(isCasedChar c) || c.isLower) && s.any isCasedChar

/-- Model of Python `str.isalnum`: the string is nonempty and every
character is alphanumeric. -/
def pyIsalnum (s : List Char) : Bool :=
  !(s.isEmpty) && s.all Char.isAlphanum

/-- `validate_bucket_name` from src/api/s3_api.py, lines 45-62: reject
unless `3 <= len(bucket_name) <= 63`, `bucket_name.islower()` and
`bucket_name.replace("-", "").isalnum()` all hold. -/
def validate_bucket_name (s : List Char) : Bool :=
  if ¬ (3 ≤ s.length ∧ s.length ≤ 63) then false
  else if !(pyIslower s) then false
  else if !(pyIsalnum (s.filter (fun c => c != '-'))) then false
  else true

/-- The acceptance condition that claim C1 asserts for
`validate_bucket_name`: `3 <= len(s) <= 63 and s == s.lower() and all
(c.isalnum() or c == '-' for c in s)`. -/
def bucketNameClaimedPred (s : List Char) : Prop :=
  3 ≤ s.length ∧ s.length ≤ 63 ∧ s.map Char.toLower = s ∧
    ∀ c ∈ s, c.isAlphanum = true ∨ c = '-'

theorem pyIslower_iff (s : List Char) :
    pyIslower s = true ↔
      (∀ c ∈ s, c.isUpper = false) ∧ (∃ c ∈ s, c.isLower = true) := by
  unfold pyIslower isCasedChar
  simp only [Bool.and_eq_true, List.all_eq_true, List.any_eq_true,
    Bool.or_eq_true, Bool.not_eq_true']
  constructor
  · rintro ⟨h1, c, hc, hcased⟩
    constructor
    · intro a ha
      rcases h1 a ha with h | h
      · simp only [Bool.or_eq_false_iff] at h
        exact h.1
      · exact isUpper_eq_false_of_isLower h
    · rcases hcased with h | h
      · rcases h1 c hc with h2 | h2
        · simp only [Bool.or_eq_false_iff] at h2
          rw [h] at h2
          simp at h2
        · exact ⟨c, hc, h2⟩
      · exact ⟨c, hc, h⟩
  · rintro ⟨hupp, c, hc, hlow⟩
    refine ⟨?_, c, hc, Or.inr hlow⟩
    intro a ha
    cases hl : a.isLower
    · left
      simp [hupp a ha, hl]
    · right
      rfl

/-- Claim C1, counterexample: the stated acceptance condition holds for the
all-digit name `"123"`, yet the code rejects it, because Python `islower()`
is false for a string with no cased character. -/
theorem validate_bucket_name_claim_false_on_digits :
    ¬ (validate_bucket_name "123".data = true ↔ bucketNameClaimedPred "123".data) := by
  intro h
  have : validate_bucket_name "123".data = true := by
    rw [h]
    refine ⟨by decide, by decide, by decide, ?_⟩
    decide
  exact absurd this (by decide)

/-- Claim C1, amended: `validate_bucket_name s` is true iff
`3 <= len(s) <= 63`, `s` has no uppercase letter, `s` has at least one
lowercase letter, and every character of `s` is alphanumeric or a hyphen.
Names with no letters at all (digits and hyphens only) are rejected by the
`islower()` check, not accepted. -/
theorem validate_bucket_name_amended (s : List Char) :
    validate_bucket_name s = true ↔
      (3 ≤ s.length ∧ s.length ≤ 63 ∧ (∀ c ∈ s, c.isUpper = false) ∧
        (∃ c ∈ s, c.isLower = true) ∧ ∀ c ∈ s, c.isAlphanum = true ∨ c = '-') := by
  have hchain : validate_bucket_name s = true ↔
      ((3 ≤ s.length ∧ s.length ≤ 63) ∧ pyIslower s = true ∧
        pyIsalnum (s.filter (fun c => c != '-')) = true) := by
    unfold validate_bucket_name
    split_ifs with h1 h2 h3 <;> simp_all
  rw [hchain, pyIslower_iff]
  unfold pyIsalnum
  simp only [Bool.and_eq_true, List.all_eq_true, List.mem_filter,
    Bool.not_eq_true', List.isEmpty_eq_false, bne_iff_ne, ne_eq]
  constructor
  · rintro ⟨⟨hl1, hl2⟩, ⟨hupp, hlow⟩, hne, halnum⟩
    refine ⟨hl1, hl2, hupp, hlow, ?_⟩
    intro c hc
    by_cases hdash : c = '-'
    · exact Or.inr hdash
    · exact Or.inl (halnum c ⟨hc, by simpa using hdash⟩)
  · rintro ⟨hl1, hl2, hupp, ⟨c, hc, hlow⟩, halnum⟩
    refine ⟨⟨hl1, hl2⟩, ⟨hupp, c, hc, hlow⟩, ?_, ?_⟩
    · apply List.ne_nil_of_mem (a := c)
      refine List.mem_filter.mpr ⟨hc, ?_⟩
      have : c ≠ '-' := by
        rintro rfl
        simp at hlow
      simpa using this
    · intro a ha
      rcases ha with ⟨has, hane⟩
      rcases halnum a has with h | h
      · exact h
      · exact absurd h (by simpa using hane)

/-- A `datetime` value at the precision used by `generate_sku`
(`strftime("%y%m%d%H%M")`): calendar fields down to the minute. -/
structure SkuTimestamp where
  year : Nat
  month : Nat
  day : Nat
  hour : Nat
  minute : Nat
deriving DecidableEq

/-- Zero-padded two-digit decimal rendering, the behaviour of the strftime
fields `%y %m %d %H %M` on their in-range values (all below 100). -/
def twoDigits (n : Nat) : List Char :=
  [Nat.digitChar (n / 10 % 10), Nat.digitChar (n % 10)]

/-- `datetime.now().strftime("%y%m%d%H%M")`: year modulo 100, month, day,
hour and minute, each zero-padded to two digits. -/
def formatSkuTimestamp (t : SkuTimestamp) : List Char :=
  twoDigits (t.year % 100) ++ twoDigits t.month ++ twoDigits t.day ++
    twoDigits t.hour ++ twoDigits t.minute

/-- `generate_sku` from src/streamlit/add_new_productv2.py, lines 31-45
(the same function appears in src/streamlit/product_mgmt_v1.py, lines
341-348): each code is `"".join(c for c in x[:n] if c.isalnum()).upper()`
with `n = 3` for the title and `n = 2` for category, color and type, and
the result is `f"{category_code}{type_code}{color_code}{title_code}-{unique_id}"`
with the timestamp as `unique_id`.  The current time is passed explicitly. -/
def generate_sku (title category color type_ : List Char) (t : SkuTimestamp) :
    List Char :=
  let title_code := ((title.take 3).filter Char.isAlphanum).map Char.toUpper
  let category_code := ((category.take 2).filter Char.isAlphanum).map Char.toUpper
  let color_code := ((color.take 2).filter Char.isAlphanum).map Char.toUpper
  let type_code := ((type_.take 2).filter Char.isAlphanum).map Char.toUpper
  let unique_id := formatSkuTimestamp t
  category_code ++ type_code ++ color_code ++ title_code ++ '-' :: unique_id

/-- The code-derivation rule exactly as claim C2 words it: take the first
`n` characters of the input, drop every non-alphanumeric character from the
taken substring, and uppercase the remainder. -/
def skuCodeOfClaim (n : Nat) (s : List Char) : List Char :=
  (List.filter Char.isAlphanum (List.take n s)).map Char.toUpper

/-- Claim C2: `generate_sku` returns the concatenation, in the fixed order
category, type, color, title, of the four codes (first 2 characters for
category, type and color, first 3 for the title, non-alphanumerics dropped,
remainder uppercased), followed by a hyphen and the timestamp formatted as
YYMMDDHHmm. -/
theorem generate_sku_spec_eq (title category color type_ : List Char)
    (t : SkuTimestamp) :
    generate_sku title category color type_ t =
      skuCodeOfClaim 2 category ++ skuCodeOfClaim 2 type_ ++
        skuCodeOfClaim 2 color ++ skuCodeOfClaim 3 title ++
        ['-'] ++ formatSkuTimestamp t := by
  simp [generate_sku, skuCodeOfClaim]

/-- Claim C3, counterexample: on title "Strength And Honor", category
"Men", color "red", type "T-shirt" at 2024-01-02 03:04 the code does not
return the claimed string "MET3REST-2401020304" (the actual codes are
ME, T, RE and STR). -/
theorem generate_sku_example_claim_false :
    generate_sku "Strength And Honor".data "Men".data "red".data
        "T-shirt".data ⟨2024, 1, 2, 3, 4⟩ ≠ "MET3REST-2401020304".data := by
  decide

/-- Claim C3, amended: on title "Strength And Honor", category "Men",
color "red", type "T-shirt" at the timestamp 2024-01-02 03:04,
`generate_sku` returns exactly "METRESTR-2401020304". -/
theorem generate_sku_example_amended :
    generate_sku "Strength And Honor".data "Men".data "red".data
        "T-shirt".data ⟨2024, 1, 2, 3, 4⟩ = "METRESTR-2401020304".data := by
  decide

/-- The vendor `create_bucket` call as issued by the route: the bucket name
and the optional `CreateBucketConfiguration` location-constraint value. -/
structure CreateBucketCall where
  bucket : List Char
  locationConstraint : Option (List Char)
deriving DecidableEq

/-- Result of the `create_bucket` route body from src/api/s3_api.py, lines
89-135, up to the vendor call: either a 400 for an invalid name, or the
vendor call that is issued. -/
inductive CreateBucketOutcome where
  | invalidName : CreateBucketOutcome
  | vendorCall : CreateBucketCall → CreateBucketOutcome
deriving DecidableEq

/-- `create_bucket` from src/api/s3_api.py: generate a name
`f"bucket-{uuid.uuid4().hex[:8]}"` when the argument is missing or empty
(`if not bucket_name`), validate it, then call the vendor without a
`CreateBucketConfiguration` when the region is exactly "us-east-1" and
with `LocationConstraint = region` otherwise.  `genHex` stands for the
8-character random hex suffix drawn inside the route. -/
def create_bucket_name (bucket_name : Option (List Char))
    (genHex : List Char) : List Char :=
  match bucket_name with
  | none => "bucket-".data ++ genHex
  | some n => if n.isEmpty then "bucket-".data ++ genHex else n

/-- The body of the route continued: validation, then the region branch. -/
def create_bucket (bucket_name : Option (List Char)) (region : List Char)
    (genHex : List Char) : CreateBucketOutcome :=
  let name := create_bucket_name bucket_name genHex
  if validate_bucket_name name then
    if region = "us-east-1".data then
      CreateBucketOutcome.vendorCall ⟨name, none⟩
    else
      CreateBucketOutcome.vendorCall ⟨name, some region⟩
  else
    CreateBucketOutcome.invalidName

/-- Claim C4: whenever `create_bucket` reaches the vendor call, the call
omits the location constraint exactly when the region is "us-east-1", and
otherwise carries that region string as the location constraint. -/
theorem create_bucket_location_constraint (bucket_name : Option (List Char))
    (region genHex : List Char) (call : CreateBucketCall)
    (h : create_bucket bucket_name region genHex =
      CreateBucketOutcome.vendorCall call) :
    call.locationConstraint =
      if region = "us-east-1".data then none else some region := by
  unfold create_bucket at h
  simp only [] at h
  split at h
  · split at h
    · next hreg =>
      cases h
      simp [hreg]
    · next hreg =>
      cases h
      simp [hreg]
  · cases h

/-- Witness for C4: concrete instances of both branches. -/
theorem create_bucket_location_constraint_witness :
    (CreateBucketCall.mk "abc".data (some "eu-west-1".data)).locationConstraint
        = (if "eu-west-1".data = "us-east-1".data then none
           else some "eu-west-1".data) ∧
    (CreateBucketCall.mk "abc".data none).locationConstraint
        = (if "us-east-1".data = "us-east-1".data then none
           else some "us-east-1".data) := by
  constructor
  · exact create_bucket_location_constraint (some "abc".data) "eu-west-1".data
      "aaaaaaaa".data _ (by decide)
  · exact create_bucket_location_constraint (some "abc".data) "us-east-1".data
      "aaaaaaaa".data _ (by decide)

/-- The trailing-slash normalisation shared by `get_folder_contents`
(src/api/s3_api.py, lines 295-297) and `get_public_image_urls_in_folder`
(lines 423-425): `if not folder_name.endswith("/"): folder_name += "/"`. -/
def ensure_trailing_slash (folder : List Char) : List Char :=
  if folder.getLast? = some '/' then folder else folder ++ ['/']

/-- The object key that `create_bucket_with_folder` (src/api/s3_api.py,
lines 242-243) passes to the vendor put-object call: the supplied folder
name unchanged, with no slash normalisation. -/
def create_bucket_with_folder_key (folder : List Char) : List Char :=
  folder

/-- The property asserted by claim C8 of a folder-derived key: it ends with
exactly one '/' character. -/
def endsWithExactlyOneSlash (l : List Char) : Bool :=
  (l.getLast? == some '/') && !(l.dropLast.getLast? == some '/')

/-- Claim C8, counterexample: for the user-supplied folder name "abc",
`create_bucket_with_folder` uses the storage key "abc", which does not end
with a trailing slash at all; additionally the listing routes leave "a//"
unchanged, a prefix ending in two slashes. -/
theorem folder_key_slash_counterexample :
    create_bucket_with_folder_key "abc".data = "abc".data ∧
    endsWithExactlyOneSlash (create_bucket_with_folder_key "abc".data) = false ∧
    ensure_trailing_slash "a//".data = "a//".data ∧
    endsWithExactlyOneSlash (ensure_trailing_slash "a//".data) = false := by
  refine ⟨rfl, by decide, by decide, by decide⟩

/-- Claim C8, amended: in the two listing routes the folder prefix used is
the input with one '/' appended when the input does not end with '/', and
the unchanged input otherwise — so it always ends with at least one '/',
but an input ending in several slashes keeps them all; and
`create_bucket_with_folder` uses the supplied folder name as the object key
unchanged, without any slash normalisation. -/
theorem folder_slash_amended (folder : List Char) :
    (ensure_trailing_slash folder).getLast? = some '/' ∧
    (folder.getLast? = some '/' → ensure_trailing_slash folder = folder) ∧
    (folder.getLast? ≠ some '/' →
      ensure_trailing_slash folder = folder ++ ['/']) ∧
    create_bucket_with_folder_key folder = folder := by
  refine ⟨?_, ?_, ?_, rfl⟩
  · unfold ensure_trailing_slash
    split
    · next h => exact h
    · exact List.getLast?_concat folder
  · intro h
    unfold ensure_trailing_slash
    rw [if_pos h]
  · intro h
    unfold ensure_trailing_slash
    rw [if_neg h]

/-- Witness for C8 at the concrete folder name "abc". -/
theorem folder_slash_amended_witness :
    ensure_trailing_slash "abc".data = "abc".data ++ ['/'] :=
  (folder_slash_amended "abc".data).2.2.1 (by decide)

/-- The public URL shape used by both URL-producing paths:
`https://{bucket}.s3.{region}.amazonaws.com/{key}`. -/
def publicImageUrl (bucket region key : List Char) : List Char :=
  "https://".data ++ bucket ++ ".s3.".data ++ region ++
    ".amazonaws.com/".data ++ key

/-- Region resolution in `get_public_image_urls_in_folder`
(src/api/s3_api.py, lines 428-435): the bucket location reported by the
store, with `None` mapped to "us-east-1". -/
def resolve_bucket_region (location : Option (List Char)) : List Char :=
  match location with
  | none => "us-east-1".data
  | some r => r

/-- File-extension filter of `get_public_image_urls_in_folder`
(src/api/s3_api.py, line 452): `key.lower().endswith((".png", ".jpg",
".jpeg", ".gif", ".bmp"))`. -/
def isImageKey (key : List Char) : Bool :=
  let k := key.map Char.toLower
  [".png", ".jpg", ".jpeg", ".gif", ".bmp"].any
    (fun ext => ext.data.isSuffixOf k)

/-- `get_public_image_urls_in_folder` from src/api/s3_api.py, lines
427-455, after the vendor listing: `location` is the stored bucket
location and `contents` the keys returned under the folder; each image key
is paired with its public URL built from the resolved region. -/
def get_public_image_urls_in_folder (bucket : List Char)
    (location : Option (List Char)) (contents : List (List Char)) :
    List (List Char × List Char) :=
  let region := resolve_bucket_region location
  (contents.filter isImageKey).map (fun k => (k, publicImageUrl bucket region k))

/-- The URL returned by `process_and_upload_image` from
src/streamlit/product_mgmt_v1.py, lines 216-220: the region is
`os.getenv("AWS_REGION", "us-east-1")` — the environment value, not the
bucket location. -/
def process_and_upload_image_url (bucket key : List Char)
    (awsRegionEnv : Option (List Char)) : List Char :=
  let region := match awsRegionEnv with
    | none => "us-east-1".data
    | some r => r
  publicImageUrl bucket region key

/-- Claim C7, counterexample: with the bucket actually located in
"eu-west-1" and `AWS_REGION` unset, the product image upload path produces
a URL whose region is "us-east-1", not the region resolved from the
bucket's stored location — so not every produced URL embeds the bucket's
actual region. -/
theorem upload_url_region_counterexample :
    process_and_upload_image_url "products-rflkt-alpha".data "f/a.png".data none ≠
      publicImageUrl "products-rflkt-alpha".data
        (resolve_bucket_region (some "eu-west-1".data)) "f/a.png".data := by
  decide

/-- Claim C7, amended: every URL produced by either path has the form
`https://{bucket}.s3.{region}.amazonaws.com/{key}`; the images-urls
endpoint resolves its region from the bucket's stored location with `None`
mapped to "us-east-1", while the upload path takes its region from the
`AWS_REGION` environment value with unset mapped to "us-east-1" (which
need not match the bucket's stored location). -/
theorem public_image_url_amended (bucket key : List Char)
    (location awsRegionEnv : Option (List Char))
    (contents : List (List Char)) :
    (∀ p ∈ get_public_image_urls_in_folder bucket location contents,
      p.2 = publicImageUrl bucket (resolve_bucket_region location) p.1) ∧
    process_and_upload_image_url bucket key awsRegionEnv =
      publicImageUrl bucket
        (match awsRegionEnv with
          | none => "us-east-1".data
          | some r => r) key := by
  constructor
  · intro p hp
    unfold get_public_image_urls_in_folder at hp
    simp only [List.mem_map] at hp
    obtain ⟨k, _, rfl⟩ := hp
    rfl
  · rfl

/-- Witness for C7 at a concrete image key and bucket location. -/
theorem public_image_url_amended_witness :
    (("f/a.png".data,
        publicImageUrl "b12".data "eu-west-1".data "f/a.png".data) :
      List Char × List Char).2 =
      publicImageUrl "b12".data
        (resolve_bucket_region (some "eu-west-1".data))
        (("f/a.png".data,
            publicImageUrl "b12".data "eu-west-1".data "f/a.png".data) :
          List Char × List Char).1 :=
  (public_image_url_amended "b12".data "f/a.png".data
      (some "eu-west-1".data) none ["f/a.png".data]).1
    ("f/a.png".data, publicImageUrl "b12".data "eu-west-1".data "f/a.png".data)
    (by decide)

/-- Model of Python `str.split()` (no separator): split on runs of
whitespace, dropping empty pieces.  `acc` accumulates the current piece in
reverse. -/
def pySplitWsAux : List Char → List Char → List (List Char)
  | [], acc => if acc.isEmpty then [] else [acc.reverse]
  | c :: rest, acc =>
    if c.isWhitespace then
      if acc.isEmpty then pySplitWsAux rest []
      else acc.reverse :: pySplitWsAux rest []
    else pySplitWsAux rest (c :: acc)

/-- Model of Python `str.split()`. -/
def pySplitWs (l : List Char) : List (List Char) :=
  pySplitWsAux l []

/-- Model of Python `"-".join(pieces)`. -/
def joinHyphen : List (List Char) → List Char
  | [] => []
  | [p] => p
  | p :: q :: ps => p ++ '-' :: joinHyphen (q :: ps)

/-- Every character of a `str.split()` piece comes from the input or the
accumulator. -/
theorem mem_of_mem_pySplitWsAux {l acc : List Char} {piece : List Char}
    {c : Char} (hp : piece ∈ pySplitWsAux l acc) (hc : c ∈ piece) :
    c ∈ l ∨ c ∈ acc := by
  induction l generalizing acc with
  | nil =>
    unfold pySplitWsAux at hp
    split at hp
    · simp at hp
    · simp only [List.mem_singleton] at hp
      subst hp
      exact Or.inr (List.mem_reverse.mp hc)
  | cons a rest ih =>
    unfold pySplitWsAux at hp
    split at hp
    · split at hp
      · rcases ih hp with h | h
        · exact Or.inl (List.mem_cons_of_mem a h)
        · simp at h
      · rcases List.mem_cons.mp hp with h | h
        · subst h
          exact Or.inr (List.mem_reverse.mp hc)
        · rcases ih h with h2 | h2
          · exact Or.inl (List.mem_cons_of_mem a h2)
          · simp at h2
    · rcases ih hp with h | h
      · exact Or.inl (List.mem_cons_of_mem a h)
      · rcases List.mem_cons.mp h with h2 | h2
        · subst h2
          exact Or.inl (List.mem_cons_self _ _)
        · exact Or.inr h2

/-- Every character of `"-".join(pieces)` is a hyphen or comes from one of
the pieces. -/
theorem mem_of_mem_joinHyphen {ps : List (List Char)} {c : Char}
    (h : c ∈ joinHyphen ps) : c = '-' ∨ ∃ p ∈ ps, c ∈ p := by
  induction ps with
  | nil => simp [joinHyphen] at h
  | cons p ps ih =>
    cases ps with
    | nil =>
      right
      exact ⟨p, List.mem_cons_self _ _, by simpa [joinHyphen] using h⟩
    | cons q ps2 =>
      unfold joinHyphen at h
      rcases List.mem_append.mp h with h1 | h1
      · exact Or.inr ⟨p, List.mem_cons_self _ _, h1⟩
      · rcases List.mem_cons.mp h1 with h2 | h2
        · exact Or.inl h2
        · rcases ih h2 with h3 | ⟨r, hr, hcr⟩
          · exact Or.inl h3
          · exact Or.inr ⟨r, List.mem_cons_of_mem p hr, hcr⟩

/-- `sanitize_folder_name` from src/streamlit/product_mgmt_v1.py, lines
172-175 (identical in src/streamlit/add_new_productv2.py, lines 78-82):
`sanitized = "-".join(title.lower().split())`, then keep only the
characters with `c.isalnum() or c == "-"`. -/
def sanitize_folder_name (title : List Char) : List Char :=
  let lowered := title.map Char.toLower
  let joined := joinHyphen (pySplitWs lowered)
  joined.filter (fun c => c.isAlphanum || c == '-')

/-- The generated product folder name
`f"{self.sanitize_folder_name(product_title)}-{unique_id}"` from
src/streamlit/product_mgmt_v1.py, line 247, where `unique_id` is
`uuid.uuid4().hex[:8]`. -/
def product_folder_name (title hexId : List Char) : List Char :=
  sanitize_folder_name title ++ '-' :: hexId

/-- Claim C9: every character of `sanitize_folder_name title` is an
alphanumeric character that is neither uppercase nor whitespace, or a
hyphen; and the generated folder name `{sanitized}-{hexid}` has the same
character set, provided the hex id consists of non-uppercase alphanumeric
characters (uuid hex digits are lowercase). -/
theorem sanitize_folder_name_charset (title hexId : List Char)
    (hhex : ∀ c ∈ hexId, c.isAlphanum = true ∧ c.isUpper = false) :
    (∀ c ∈ sanitize_folder_name title,
      (c.isAlphanum = true ∧ c.isUpper = false ∧ c.isWhitespace = false) ∨
        c = '-') ∧
    (∀ c ∈ product_folder_name title hexId,
      (c.isAlphanum = true ∧ c.isUpper = false ∧ c.isWhitespace = false) ∨
        c = '-') := by
  have hsan : ∀ c ∈ sanitize_folder_name title,
      (c.isAlphanum = true ∧ c.isUpper = false ∧ c.isWhitespace = false) ∨
        c = '-' := by
    intro c hc
    unfold sanitize_folder_name at hc
    rcases List.mem_filter.mp hc with ⟨hmem, hkeep⟩
    simp only [Bool.or_eq_true, beq_iff_eq] at hkeep
    rcases hkeep with halnum | hdash
    · left
      refine ⟨halnum, ?_, isWhitespace_eq_false_of_isAlphanum halnum⟩
      rcases mem_of_mem_joinHyphen hmem with rfl | ⟨p, hp, hcp⟩
      · simp at halnum
      · rcases mem_of_mem_pySplitWsAux hp hcp with hlow | hlow
        · rcases List.mem_map.mp hlow with ⟨c0, _, rfl⟩
          exact isUpper_toLower c0
        · simp at hlow
    · exact Or.inr hdash
  refine ⟨hsan, ?_⟩
  intro c hc
  unfold product_folder_name at hc
  rcases List.mem_append.mp hc with h | h
  · exact hsan c h
  · rcases List.mem_cons.mp h with rfl | h2
    · exact Or.inr rfl
    · rcases hhex c h2 with ⟨h1, h2u⟩
      exact Or.inl ⟨h1, h2u, isWhitespace_eq_false_of_isAlphanum h1⟩

/-- Witness for C9: the character `m` of the sanitized title
"My Product!" satisfies the character-set property. -/
theorem sanitize_folder_name_charset_witness :
    ('m'.isAlphanum = true ∧ 'm'.isUpper = false ∧ 'm'.isWhitespace = false) ∨
      'm' = '-' :=
  (sanitize_folder_name_charset "My Product!".data "7a5671cb".data
      (by decide)).1 'm' (by decide)

/-- Model of Python `str.split("-")`: split on every hyphen, keeping empty
pieces (so the result is never the empty list). -/
def split_on_hyphen : List Char → List (List Char)
  | [] => [[]]
  | c :: rest =>
    match split_on_hyphen rest with
    | [] => [[]]
    | p :: ps => if c = '-' then [] :: p :: ps else (c :: p) :: ps

/-- `folder_name.split("-")[-1]` from src/streamlit/product_mgmt_v1.py,
lines 358-360: the unique id is the part of the folder name after its last
hyphen. -/
def derive_unique_id (folder : List Char) : List Char :=
  (split_on_hyphen folder).getLastD []

/-- `str.split` never returns an empty list of pieces. -/
theorem split_on_hyphen_ne_nil (l : List Char) : split_on_hyphen l ≠ [] := by
  cases l with
  | nil => simp [split_on_hyphen]
  | cons c rest =>
    unfold split_on_hyphen
    split
    · simp
    · split <;> simp

/-- Splitting a hyphen-free string yields the single piece equal to the
whole string. -/
theorem split_on_hyphen_eq_of_not_mem {l : List Char} (h : '-' ∉ l) :
    split_on_hyphen l = [l] := by
  induction l with
  | nil => rfl
  | cons c rest ih =>
    have hc : c ≠ '-' := by
      intro hc
      exact h (hc ▸ List.mem_cons_self _ _)
    have hrest : '-' ∉ rest := fun hm => h (List.mem_cons_of_mem c hm)
    unfold split_on_hyphen
    rw [ih hrest]
    simp [hc]

/-- Outcome of `delete_product` from src/streamlit/product_mgmt_v1.py,
lines 350-407: the returned `(success, message)` pair together with the
database rows and storage objects after the call, and whether the storage
listing was reached. -/
structure DeleteOutcome where
  success : Bool
  message : List Char
  db : List (List Char)
  s3 : List (List Char)
  storageListed : Bool
deriving DecidableEq

/-- The message returned when the database delete affects no row. -/
def notFoundMessage (folder : List Char) : List Char :=
  "Product with folder name ".data ++ folder ++ " not found in database".data

/-- The message returned on full success. -/
def deleteSuccessMessage (folder : List Char) : List Char :=
  "Product folder ".data ++ (folder ++ " deleted successfully".data)

/-- The message returned when the database delete succeeded but the
storage deletion raised the error text `e`. -/
def storageFailedMessage (e : List Char) : List Char :=
  "Product deleted from database, but S3 folder deletion failed: ".data ++ e

/-- `delete_product`: derive the unique id from the folder name, delete the
matching rows (`db` is the list of `unique_id` values of the rows of the
`products` table), return not-found when no row was affected; otherwise
delete every stored object whose key starts with `folder + "/"`.
`storageError` models an exception raised by the storage listing/deletion
block: in that case the function still reports success, with a message
carrying the error text. -/
def delete_product (folder : List Char) (db s3 : List (List Char))
    (storageError : Option (List Char)) : DeleteOutcome :=
  let unique_id := derive_unique_id folder
  let db' := db.filter (fun r => r != unique_id)
  if db.length - db'.length = 0 then
    ⟨false, notFoundMessage folder, db', s3, false⟩
  else
    match storageError with
    | some e => ⟨true, storageFailedMessage e, db', s3, true⟩
    | none =>
      let pfx := folder ++ ['/']
      ⟨true, deleteSuccessMessage folder, db',
        s3.filter (fun k => !(pfx.isPrefixOf k)), true⟩

/-- The three outcome messages are pairwise distinguishable: they differ at
character position 8. -/
theorem storageFailedMessage_ne (e folder folder' : List Char) :
    storageFailedMessage e ≠ deleteSuccessMessage folder ∧
    storageFailedMessage e ≠ notFoundMessage folder' := by
  constructor
  · intro heq
    have h9 := congrArg (List.take 9) heq
    rw [storageFailedMessage, deleteSuccessMessage,
      List.take_append_of_le_length (by decide),
      List.take_append_of_le_length (by decide)] at h9
    exact absurd h9 (by decide)
  · intro heq
    have h9 := congrArg (List.take 9) heq
    rw [storageFailedMessage, notFoundMessage,
      List.take_append_of_le_length (by decide)] at h9
    rw [show "Product with folder name ".data ++ folder' ++ " not found in database".data
        = "Product with folder name ".data ++ (folder' ++ " not found in database".data) by simp,
      List.take_append_of_le_length (by decide)] at h9
    exact absurd h9 (by decide)

/-- Claim C5: when the derived unique id matches no database row,
`delete_product` returns a failure outcome with the not-found message and
performs no storage listing and no storage deletion. -/
theorem delete_product_not_found (folder : List Char)
    (db s3 : List (List Char)) (storageError : Option (List Char))
    (h : derive_unique_id folder ∉ db) :
    (delete_product folder db s3 storageError).success = false ∧
    (delete_product folder db s3 storageError).message = notFoundMessage folder ∧
    (delete_product folder db s3 storageError).s3 = s3 ∧
    (delete_product folder db s3 storageError).storageListed = false := by
  have hfil : db.filter (fun r => r != derive_unique_id folder) = db := by
    apply List.filter_eq_self.mpr
    intro a ha
    simp only [bne_iff_ne, ne_eq]
    rintro rfl
    exact h ha
  simp only [delete_product]
  rw [hfil]
  simp

/-- Witness for C5: folder "abc-dead" whose id "dead" is not in the
database. -/
theorem delete_product_not_found_witness :
    (delete_product "abc-dead".data ["beef".data] ["abc-dead/x.png".data]
        none).success = false ∧
    (delete_product "abc-dead".data ["beef".data] ["abc-dead/x.png".data]
        none).message = notFoundMessage "abc-dead".data ∧
    (delete_product "abc-dead".data ["beef".data] ["abc-dead/x.png".data]
        none).s3 = ["abc-dead/x.png".data] ∧
    (delete_product "abc-dead".data ["beef".data] ["abc-dead/x.png".data]
        none).storageListed = false :=
  delete_product_not_found "abc-dead".data ["beef".data]
    ["abc-dead/x.png".data] none (by decide)

/-- Claim C6: when the database delete affects at least one row and the
storage deletion raises, `delete_product` reports success with the message
carrying the storage error — distinguishable both from the pure-success
message and from the not-found failure — and the database delete is not
rolled back. -/
theorem delete_product_storage_failure (folder : List Char)
    (db s3 : List (List Char)) (e : List Char)
    (h : derive_unique_id folder ∈ db) :
    (delete_product folder db s3 (some e)).success = true ∧
    (delete_product folder db s3 (some e)).message = storageFailedMessage e ∧
    (delete_product folder db s3 (some e)).message ≠
      deleteSuccessMessage folder ∧
    (delete_product folder db s3 (some e)).message ≠ notFoundMessage folder ∧
    (delete_product folder db s3 (some e)).db =
      db.filter (fun r => r != derive_unique_id folder) := by
  have hlt : (db.filter (fun r => r != derive_unique_id folder)).length ≠
      db.length := by
    intro hlen
    have hall := List.filter_length_eq_length.mp hlen
    have := hall _ h
    simp at this
  have hcond : ¬ (db.length -
      (db.filter (fun r => r != derive_unique_id folder)).length = 0) := by
    have hle := List.length_filter_le (fun r => r != derive_unique_id folder) db
    omega
  simp only [delete_product]
  rw [if_neg hcond]
  exact ⟨rfl, rfl, (storageFailedMessage_ne e folder folder).1,
    (storageFailedMessage_ne e folder folder).2, rfl⟩

/-- Witness for C6: folder "abc-dead" whose id "dead" is a database row,
with a storage error "boom". -/
theorem delete_product_storage_failure_witness :
    (delete_product "abc-dead".data ["dead".data] ["abc-dead/x.png".data]
        (some "boom".data)).success = true ∧
    (delete_product "abc-dead".data ["dead".data] ["abc-dead/x.png".data]
        (some "boom".data)).message = storageFailedMessage "boom".data ∧
    (delete_product "abc-dead".data ["dead".data] ["abc-dead/x.png".data]
        (some "boom".data)).message ≠ deleteSuccessMessage "abc-dead".data ∧
    (delete_product "abc-dead".data ["dead".data] ["abc-dead/x.png".data]
        (some "boom".data)).message ≠ notFoundMessage "abc-dead".data ∧
    (delete_product "abc-dead".data ["dead".data] ["abc-dead/x.png".data]
        (some "boom".data)).db =
      ["dead".data].filter (fun r => r != derive_unique_id "abc-dead".data) :=
  delete_product_storage_failure "abc-dead".data ["dead".data]
    ["abc-dead/x.png".data] "boom".data (by decide)

/-- Claim C10: the correlation id is the substring after the last hyphen,
and a folder name containing no hyphen is used whole as the id in the
database delete; the operation does not reject such names. -/
theorem delete_product_no_hyphen_id (folder : List Char)
    (db s3 : List (List Char)) (storageError : Option (List Char))
    (h : '-' ∉ folder) :
    derive_unique_id folder = folder ∧
    (delete_product folder db s3 storageError).db =
      db.filter (fun r => r != folder) := by
  have huid : derive_unique_id folder = folder := by
    unfold derive_unique_id
    rw [split_on_hyphen_eq_of_not_mem h]
    rfl
  refine ⟨huid, ?_⟩
  cases storageError with
  | none =>
    simp only [delete_product, huid]
    split <;> rfl
  | some e =>
    simp only [delete_product, huid]
    split <;> rfl

/-- Witness for C10 at the hyphen-free folder name "abcdef". -/
theorem delete_product_no_hyphen_id_witness :
    derive_unique_id "abcdef".data = "abcdef".data ∧
    (delete_product "abcdef".data ["abcdef".data] [] none).db =
      ["abcdef".data].filter (fun r => r != "abcdef".data) :=
  delete_product_no_hyphen_id "abcdef".data ["abcdef".data] [] none (by decide)
